import Mathlib

/-!
Verification of the `user_account` CRUD client
(`CS727_CourseProject/Deliverable4/crud_app.py` and
`CS727_CourseProject/Deliverable5/crud_app.py`; the CRUD logic of the two
files is line-for-line identical, so one embedding covers both).

Modelling conventions:
* Python `str` values are embedded as `List Char` (`PyStr`); the helpers
  `pyStrip`, `toLowerMapped`, `List.splitOn` mirror `str.strip`, `str.lower`
  and `str.split` for the ASCII data this program handles.
* Python `float(...)` applied to a stripped string is embedded as `pyFloat`,
  following the documented grammar of float literals (optional sign,
  digit parts with single interior underscores, optional fraction and
  exponent, and the special spellings `inf`/`infinity`/`nan`).  A finite
  parsed value is kept exactly as a scaled integer `PyVal.fin n s`
  (denoting n / 10^s); IEEE-754 rounding of the decimal value is
  abstracted away, which is invisible to the range checks proved here.
* Python `int(...)` on a string is embedded as `pyInt`.
* The database is embedded as lists of rows, one list per table touched by
  the program; each SQL statement the program issues is a value of `Sql`
  and its effect on the state is `applySql`.
-/

namespace Crud

abbrev PyStr := List Char

/-- The whitespace characters stripped by Python's `str.strip()`
(ASCII portion). -/
def isPySpace (c : Char) : Bool :=
  c == ' ' || c == '\t' || c == '\n' || c == '\r' || c == '\x0b' || c == '\x0c'

/-- `s.strip()` on a Python string. -/
def pyStrip (cs : PyStr) : PyStr :=
  ((cs.dropWhile isPySpace).reverse.dropWhile isPySpace).reverse

/-- Character-wise lowercasing, as applied by `float()` to accept
`INF`, `Infinity`, `NaN`, `1E5`, and so on. -/
def toLowerMapped (cs : PyStr) : PyStr := cs.map Char.toLower

/-- `true` when the list has no two consecutive underscores. -/
def noDoubleUnderscore : List Char → Bool
  | '_' :: '_' :: _ => false
  | _ :: rest => noDoubleUnderscore rest
  | [] => true

/-- A `digitpart` of the Python numeric-literal grammar:
`digit (["_"] digit)*` — nonempty, first and last characters are digits,
every character is a digit or an underscore, and no `__` occurs. -/
def isDigitPart (cs : List Char) : Bool :=
  !cs.isEmpty && cs.all (fun c => c.isDigit || c == '_') &&
    (cs.headD '_').isDigit && (cs.getLastD '_').isDigit &&
    noDoubleUnderscore cs

/-- Underscore separators are dropped before reading the digits. -/
def dropUnderscores (cs : List Char) : List Char :=
  cs.filter (fun c => c != '_')

/-- Base-10 value of a list of digit characters. -/
def digitsVal (cs : List Char) : Nat :=
  cs.foldl (fun acc c => acc * 10 + (c.toNat - 48)) 0

/-- The value produced by Python `float(...)`: a quiet NaN, a signed
infinity (`inf true` is negative infinity), or a finite value `fin n s`
denoting the exact rational n / 10^s. -/
inductive PyVal where
  | nan : PyVal
  | inf : Bool → PyVal
  | fin : Int → Nat → PyVal
  deriving DecidableEq

/-- Splits the mantissa of a float literal into integer part and
fractional part, validating the grammar
`(digitpart? "." digitpart) | (digitpart "." digitpart?) | digitpart`. -/
def mantissaParts (cs : List Char) : Option (List Char × List Char) :=
  match cs.splitOn '.' with
  | [ip] => if isDigitPart ip then some (ip, []) else none
  | [ip, fp] =>
      if (ip.isEmpty || isDigitPart ip) && (fp.isEmpty || isDigitPart fp)
          && !(ip.isEmpty && fp.isEmpty)
      then some (ip, fp) else none
  | _ => none

/-- Signed exponent of a float literal. -/
def expVal (cs : List Char) : Option Int :=
  match cs with
  | '+' :: r => if isDigitPart r then some ((digitsVal (dropUnderscores r) : Nat) : Int) else none
  | '-' :: r => if isDigitPart r then some (-((digitsVal (dropUnderscores r) : Nat) : Int)) else none
  | r => if isDigitPart r then some ((digitsVal (dropUnderscores r) : Nat) : Int) else none

/-- Assembles the finite value sign·mantissa·10^e as a scaled integer. -/
def finOfParts (neg : Bool) (ip fp : List Char) (e : Int) : PyVal :=
  let n : Nat := digitsVal (dropUnderscores (ip ++ fp))
  let scale : Nat := (dropUnderscores fp).length
  let sn : Int := if neg then -(n : Int) else (n : Int)
  match e with
  | .ofNat k => .fin (sn * ((10 : Int) ^ k)) scale
  | .negSucc k => .fin sn (scale + (k + 1))

/-- Python `float(s)` on a string: strips whitespace, accepts an optional
sign, the special values, or a decimal literal with optional fraction,
exponent and digit-group underscores.  Returns `none` exactly when the
call raises `ValueError`. -/
def pyFloat (s : PyStr) : Option PyVal :=
  let cs := toLowerMapped (pyStrip s)
  let sr : Bool × PyStr :=
    match cs with
    | '+' :: r => (false, r)
    | '-' :: r => (true, r)
    | r => (false, r)
  let neg := sr.1
  let rest := sr.2
  if rest = "inf".data ∨ rest = "infinity".data then some (.inf neg)
  else if rest = "nan".data then some .nan
  else
    match rest.splitOn 'e' with
    | [m] =>
        match mantissaParts m with
        | some (ip, fp) => some (finOfParts neg ip fp 0)
        | none => none
    | [m, ex] =>
        match mantissaParts m, expVal ex with
        | some (ip, fp), some e => some (finOfParts neg ip fp e)
        | _, _ => none
    | _ => none

/-- Auxiliary for `pyInt`: digits (with underscores) after the sign. -/
def pyIntOfDigits (neg : Bool) (r : List Char) : Option Int :=
  if isDigitPart r then
    let n := digitsVal (dropUnderscores r)
    some (if neg then -(n : Int) else (n : Int))
  else none

/-- Python `int(s)` on a string in base 10: strips whitespace, accepts an
optional sign and a digit part.  Returns `none` exactly when the call
raises `ValueError`. -/
def pyInt (s : PyStr) : Option Int :=
  match pyStrip s with
  | '+' :: r => pyIntOfDigits false r
  | '-' :: r => pyIntOfDigits true r
  | r => pyIntOfDigits false r

/-- Python `<=` on float values: `false` whenever a NaN is involved,
otherwise the usual order with the infinities at the ends. -/
def pyLe : PyVal → PyVal → Bool
  | .nan, _ => false
  | _, .nan => false
  | .inf true, _ => true
  | .inf false, y => y == .inf false
  | .fin _ _, .inf b => !b
  | .fin a p, .fin b q => decide (a * ((10 : Int) ^ q) ≤ b * ((10 : Int) ^ p))

/-- `text.strip("[")`: removes the given character from both ends. -/
def pyStripChar (c : Char) (cs : PyStr) : PyStr :=
  ((cs.dropWhile (· == c)).reverse.dropWhile (· == c)).reverse

/-- Python truthiness of `self.selected_id : Option Int`:
`None` and `0` are falsy. -/
def pyTruthy : Option Int → Bool
  | none => false
  | some n => n != 0

/- ### Data model: the six tables the program reads or mutates -/

/-- A `user_account` row (the columns the program selects). -/
structure UserRow where
  user_id : Int
  username : PyStr
  email : PyStr
  user_type : PyStr
  account_status : PyStr
  rating : PyVal
  deriving DecidableEq

/-- A `listing` row (the columns the delete cascade touches). -/
structure Listing where
  listing_id : Int
  seller_id : Int
  deriving DecidableEq

/-- A `bid` row (the columns the delete cascade touches). -/
structure Bid where
  user_id : Int
  listing_id : Int
  deriving DecidableEq

/-- A `transaction` row (the columns the delete cascade touches). -/
structure Transaction where
  transaction_id : Int
  buyer_id : Int
  seller_id : Int
  listing_id : Int
  deriving DecidableEq

/-- A `feedback` row (the columns the delete cascade touches). -/
structure Feedback where
  author_user_id : Int
  target_user_id : Int
  transaction_id : Int
  deriving DecidableEq

/-- A `user_listing_watch` row. -/
structure Watch where
  user_id : Int
  listing_id : Int
  deriving DecidableEq

/-- The database state: one row list per table. -/
structure DB where
  user_account : List UserRow
  listing : List Listing
  bid : List Bid
  transaction : List Transaction
  feedback : List Feedback
  user_listing_watch : List Watch
  deriving DecidableEq

/- ### SQL statements issued by the program -/

/-- `x = ANY(arr)` under SQL three-valued logic: a `NULL` element never
matches, so the comparison is true iff some non-null element equals `x`. -/
def anyEq (x : Int) (arr : List (Option Int)) : Bool :=
  arr.any (fun o => o == some x)

/-- `listing_array = listing_ids if listing_ids else [None]`: the bound
array parameter; `[None]` makes every later `= ANY` comparison false. -/
def listingArray (ids : List Int) : List (Option Int) :=
  if ids.isEmpty then [none] else ids.map some

/-- `SELECT listing_id FROM listing WHERE seller_id = uid`. -/
def ownedListings (db : DB) (uid : Int) : List Int :=
  (db.listing.filter (fun l => l.seller_id == uid)).map Listing.listing_id

/-- The parameterized SQL statements the program executes, with their
bound parameters. -/
inductive Sql where
  | selListings : Int → Sql
  | delFeedback : Int → List (Option Int) → Sql
  | delTransaction : Int → List (Option Int) → Sql
  | delBid : Int → List (Option Int) → Sql
  | delWatch : Int → List (Option Int) → Sql
  | delListing : Int → Sql
  | delUser : Int → Sql
  | insertUser : PyStr → PyStr → PyStr → PyStr → PyVal → Sql
  | updateUser : Int → PyStr → PyStr → PyStr → PyStr → PyVal → Sql
  deriving DecidableEq

/-- Effect of one statement on the database state.  The `DELETE`
statements are interpreted literally; `selListings` is read-only;
`insertUser`/`updateUser` appear only in traces (their effect is applied
at the call site in `create`/`update`, where the generated key and the
target row id are in scope). -/
def applySql : Sql → DB → DB
  | .selListings _, db => db
  | .delFeedback uid arr, db =>
      { db with feedback := db.feedback.filter (fun f =>
          !(f.author_user_id == uid || f.target_user_id == uid ||
            db.transaction.any (fun t =>
              (t.buyer_id == uid || t.seller_id == uid || anyEq t.listing_id arr) &&
              t.transaction_id == f.transaction_id))) }
  | .delTransaction uid arr, db =>
      { db with transaction := db.transaction.filter (fun t =>
          !(t.buyer_id == uid || t.seller_id == uid || anyEq t.listing_id arr)) }
  | .delBid uid arr, db =>
      { db with bid := db.bid.filter (fun b =>
          !(b.user_id == uid || anyEq b.listing_id arr)) }
  | .delWatch uid arr, db =>
      { db with user_listing_watch := db.user_listing_watch.filter (fun w =>
          !(w.user_id == uid || anyEq w.listing_id arr)) }
  | .delListing uid, db =>
      { db with listing := db.listing.filter (fun l => !(l.seller_id == uid)) }
  | .delUser uid, db =>
      { db with user_account := db.user_account.filter (fun u => !(u.user_id == uid)) }
  | .insertUser _ _ _ _ _, db => db
  | .updateUser _ _ _ _ _ _, db => db

/- ### The delete cascade -/

/-- The six `DELETE` statements of `CrudApp.delete`, in the order the
source issues them. -/
def cascadeStmts (uid : Int) (arr : List (Option Int)) : List Sql :=
  [.delFeedback uid arr, .delTransaction uid arr, .delBid uid arr,
   .delWatch uid arr, .delListing uid, .delUser uid]

/-- Runs a statement list inside the open transaction.  `fail i` is the
database's verdict on the i-th statement of the cascade: `some m` means
that statement raises with message `m`.  Returns the outcome together
with the statements actually issued. -/
def execStmts (fail : Nat → Option String) :
    List Sql → Nat → DB → Except String DB × List Sql
  | [], _, db => (.ok db, [])
  | s :: rest, i, db =>
      match fail i with
      | some m => (.error m, [s])
      | none =>
          let r := execStmts fail rest (i + 1) (applySql s db)
          (r.1, s :: r.2)

/-- The body of the `with self.conn:` block of `CrudApp.delete`: the
listing lookup (statement 0) followed by the six deletes
(statements 1–6). -/
def deleteCascadeRun (uid : Int) (db : DB) (fail : Nat → Option String) :
    Except String DB × List Sql :=
  match fail 0 with
  | some m => (.error m, [.selListings uid])
  | none =>
      let arr := listingArray (ownedListings db uid)
      let r := execStmts fail (cascadeStmts uid arr) 1 db
      (r.1, .selListings uid :: r.2)

/-- The state produced by a cascade in which every statement succeeds. -/
def deleteCascade (uid : Int) (db : DB) : DB :=
  (cascadeStmts uid (listingArray (ownedListings db uid))).foldl
    (fun d s => applySql s d) db

/- ### UI-facing operations -/

/-- A blocking dialog shown by `messagebox`. -/
inductive Dialog where
  | error : String → String → Dialog
  | info : String → String → Dialog
  deriving DecidableEq

/-- `true` exactly on `messagebox.showerror` dialogs. -/
def isErrorDialog : Option Dialog → Bool
  | some (.error _ _) => true
  | _ => false

/-- Outcome of one button press: the committed database state, the dialog
shown (if any), and the SQL statements issued. -/
structure OpOut where
  db : DB
  dialog : Option Dialog
  trace : List Sql
  deriving DecidableEq

/-- The raw text of the five form entries. -/
structure FormInput where
  username : String
  email : String
  user_type : String
  account_status : String
  rating : String

/-- `0 <= rating_val <= 5` (Python chained comparison on floats). -/
def ratingInRange (v : PyVal) : Bool :=
  pyLe (.fin 0 0) v && pyLe v (.fin 5 0)

/-- The `strip() or default` idiom: Python's `or` yields the default
when the stripped entry is the empty (falsy) string. -/
def orDefault (s d : PyStr) : PyStr := if s = [] then d else s

/-- `float(rating)` where `rating = entry.strip() or 0`: the Python int
`0` taken for an empty entry maps to `0.0`, any other stripped entry is
parsed as a float string. -/
def ratingValue (s : PyStr) : Option PyVal :=
  if s = [] then some (PyVal.fin 0 0) else pyFloat s

/-- `CrudApp.create`: validates the form and inserts one row.  `newId` is
the key the database generates for `RETURNING user_id`.  The
`strip() or default` idiom replaces an empty stripped entry by the
default; for `rating` the default is the Python int `0`, whose
`float(...)` image is `0.0`. -/
def create (inp : FormInput) (newId : Int) (db : DB) : OpOut :=
  let username := pyStrip inp.username.data
  let email := pyStrip inp.email.data
  let user_type := orDefault (pyStrip inp.user_type.data) "buyer".data
  let account_status := orDefault (pyStrip inp.account_status.data) "active".data
  let ratingS := pyStrip inp.rating.data
  if username = [] ∨ email = [] then
    ⟨db, some (.error "Error" "Username and email are required."), []⟩
  else if ¬ (user_type = "buyer".data ∨ user_type = "seller".data ∨ user_type = "both".data) then
    ⟨db, some (.error "Error" "User type must be buyer, seller, or both."), []⟩
  else if ¬ (account_status = "active".data ∨ account_status = "suspended".data ∨
      account_status = "closed".data) then
    ⟨db, some (.error "Error" "Status must be active, suspended, or closed."), []⟩
  else
    match ratingValue ratingS with
    | none => ⟨db, some (.error "Error" "Rating must be numeric."), []⟩
    | some v =>
        if ¬ ratingInRange v then
          ⟨db, some (.error "Error" "Rating must be between 0 and 5."), []⟩
        else
          ⟨{ db with user_account :=
               db.user_account ++ [⟨newId, username, email, user_type, account_status, v⟩] },
           some (.info "Success" ("Created user_id=" ++ toString newId)),
           [.insertUser username email user_type account_status v]⟩

/-- `CrudApp.update`: requires a truthy selected id, validates the form
identically to `create`, and rewrites the selected row. -/
def update (sel : Option Int) (inp : FormInput) (db : DB) : OpOut :=
  if ¬ pyTruthy sel then
    ⟨db, some (.error "Error" "Select a user to update."), []⟩
  else
    let uid := sel.getD 0
    let username := pyStrip inp.username.data
    let email := pyStrip inp.email.data
    let user_type := orDefault (pyStrip inp.user_type.data) "buyer".data
    let account_status := orDefault (pyStrip inp.account_status.data) "active".data
    let ratingS := pyStrip inp.rating.data
    if username = [] ∨ email = [] then
      ⟨db, some (.error "Error" "Username and email are required."), []⟩
    else if ¬ (user_type = "buyer".data ∨ user_type = "seller".data ∨ user_type = "both".data) then
      ⟨db, some (.error "Error" "User type must be buyer, seller, or both."), []⟩
    else if ¬ (account_status = "active".data ∨ account_status = "suspended".data ∨
        account_status = "closed".data) then
      ⟨db, some (.error "Error" "Status must be active, suspended, or closed."), []⟩
    else
      match ratingValue ratingS with
      | none => ⟨db, some (.error "Error" "Rating must be numeric."), []⟩
      | some v =>
          if ¬ ratingInRange v then
            ⟨db, some (.error "Error" "Rating must be between 0 and 5."), []⟩
          else
            ⟨{ db with user_account := db.user_account.map (fun u =>
                 if u.user_id == uid then
                   { u with username := username, email := email, user_type := user_type,
                            account_status := account_status, rating := v }
                 else u) },
             some (.info "Success" ("Updated user_id=" ++ toString uid)),
             [.updateUser uid username email user_type account_status v]⟩

/-- `CrudApp.delete`: requires a truthy selected id and a confirmation,
then runs the cascade inside one transaction; on success the transaction
commits, on any raise it rolls back and the exception text is shown. -/
def deleteButton (sel : Option Int) (confirm : Bool) (db : DB)
    (fail : Nat → Option String) : OpOut :=
  if ¬ pyTruthy sel then
    ⟨db, some (.error "Error" "Select a user to delete."), []⟩
  else if ¬ confirm then
    ⟨db, none, []⟩
  else
    let uid := sel.getD 0
    let r := deleteCascadeRun uid db fail
    match r.1 with
    | .ok db2 => ⟨db2, some (.info "Deleted" ("Deleted user_id=" ++ toString uid)), r.2⟩
    | .error m => ⟨db, some (.error "Delete failed" m), r.2⟩

/- ### Listing, selection, connection -/

/-- The five form entry widgets. -/
structure Form where
  username : PyStr
  email : PyStr
  user_type : PyStr
  account_status : PyStr
  rating : PyStr
  deriving DecidableEq

/-- The mutable UI state the operations consult. -/
structure AppState where
  selected_id : Option Int
  form : Form
  deriving DecidableEq

/-- `str(...)` of a rating value for display; the decimal rendering of
floats is abstracted (no claim depends on its exact text). -/
def pyValRepr : PyVal → PyStr
  | .nan => "nan".data
  | .inf true => "-inf".data
  | .inf false => "inf".data
  | .fin n s => (toString n).data ++ "e-".data ++ (toString s).data

/-- `SELECT ... FROM user_account WHERE user_id = %s` + `fetchone()`. -/
def lookupUser (db : DB) (i : Int) : Option UserRow :=
  (db.user_account.filter (fun u => u.user_id == i)).head?

/-- Form contents populated from a fetched row. -/
def formOf (r : UserRow) : Form :=
  ⟨r.username, r.email, r.user_type, r.account_status, pyValRepr r.rating⟩

/-- `int(text.split("]")[0].strip("["))` — the id parsed from a rendered
listbox line; `none` when `int()` raises. -/
def extractId (text : PyStr) : Option Int :=
  pyInt (pyStripChar '[' ((text.splitOn ']').headD []))

/-- `CrudApp.on_select` for a selection whose line text is `text`:
on a parse failure the stored id is cleared and nothing else happens;
otherwise the id is stored and, when the row exists, the form is
repopulated from it. -/
def on_select (text : PyStr) (st : AppState) (db : DB) : AppState :=
  match extractId text with
  | none => { st with selected_id := none }
  | some i =>
      let st1 : AppState := { st with selected_id := some i }
      match lookupUser db i with
      | some row => { st1 with form := formOf row }
      | none => st1

/-- `ORDER BY user_id` comparison. -/
def userLe (a b : UserRow) : Bool := decide (a.user_id ≤ b.user_id)

/-- Rows returned by `SELECT ... FROM user_account ORDER BY user_id`. -/
def refreshRows (db : DB) : List UserRow := db.user_account.mergeSort userLe

/-- Left-justified padding of an f-string field (`{x:12}` etc.). -/
def padTo (w : Nat) (s : PyStr) : PyStr := s ++ List.replicate (w - s.length) ' '

/-- The listbox line rendered for one row. -/
def renderLine (r : UserRow) : PyStr :=
  "[".data ++ (toString r.user_id).data ++ "] ".data ++ padTo 12 r.username
    ++ " | ".data ++ padTo 25 r.email ++ " | ".data ++ padTo 6 r.user_type
    ++ " | ".data ++ padTo 9 r.account_status ++ " | rating=".data ++ pyValRepr r.rating

/-- The listbox contents after `CrudApp.refresh`: the fetched rows
rendered in the order they were returned. -/
def refreshDisplay (db : DB) : List PyStr := (refreshRows db).map renderLine

/-- Connection parameters handed to `psycopg2.connect`. -/
structure ConnParams where
  host : Option String
  port : Int
  user : Option String
  password : Option String
  dbname : String
  deriving DecidableEq

/-- `get_conn` parameter assembly from the environment (`env k` is
`os.getenv(k)`); `none` when `int()` on the port raises, in which case no
connection is attempted. -/
def get_conn (env : String → Option String) : Option ConnParams :=
  let host := (env "PGHOST").getD ""
  match pyInt ((env "PGPORT").getD "5432").data with
  | none => none
  | some port =>
      some { host := if host = "" then none else some host,
             port := port,
             user := (env "PGUSER").orElse (fun _ => env "USER"),
             password := env "PGPASSWORD",
             dbname := (env "PGDATABASE").getD "ebay_db" }

/- ### Claim-side predicates and fixtures -/

/-- Membership test for an id in a list of ids. -/
def memId (x : Int) (ids : List Int) : Bool := ids.any (fun y => y == x)

/-- The referential-cleanup condition of the spec, for user `uid` whose
listings at the start of the operation were `owned`: no feedback row
names the user, no transaction/bid/watch row names the user or one of
those listings, and no listing row has the user as seller. -/
def noUserRefs (uid : Int) (owned : List Int) (db : DB) : Bool :=
  db.feedback.all (fun f => f.author_user_id != uid && f.target_user_id != uid) &&
  db.transaction.all (fun t =>
    t.buyer_id != uid && t.seller_id != uid && !memId t.listing_id owned) &&
  db.bid.all (fun b => b.user_id != uid && !memId b.listing_id owned) &&
  db.user_listing_watch.all (fun w => w.user_id != uid && !memId w.listing_id owned) &&
  db.listing.all (fun l => l.seller_id != uid)

/-- A validation failure as the spec describes it: an error dialog is
shown, no SQL statement is issued, and the database is unchanged. -/
def rejectedNoWrite (o : OpOut) (db : DB) : Prop :=
  isErrorDialog o.dialog = true ∧ o.db = db ∧ o.trace = []

/-- Target table of a `DELETE` statement. -/
inductive Table where
  | feedback | transaction | bid | user_listing_watch | listing | user_account
  deriving DecidableEq

/-- Maps a statement to the table it deletes from (`none` for
non-`DELETE` statements). -/
def deleteTarget : Sql → Option Table
  | .delFeedback _ _ => some .feedback
  | .delTransaction _ _ => some .transaction
  | .delBid _ _ => some .bid
  | .delWatch _ _ => some .user_listing_watch
  | .delListing _ => some .listing
  | .delUser _ => some .user_account
  | _ => none

/- ### Fixtures used by the witnesses -/

/-- A small populated database. -/
def sampleDB : DB :=
  { user_account := [⟨1, "alice".data, "a@x.com".data, "buyer".data, "active".data, .fin 45 1⟩,
                     ⟨2, "bob".data, "b@x.com".data, "seller".data, "active".data, .fin 3 0⟩],
    listing := [⟨10, 2⟩, ⟨11, 1⟩],
    bid := [⟨1, 10⟩, ⟨2, 11⟩],
    transaction := [⟨100, 1, 2, 10⟩],
    feedback := [⟨1, 2, 100⟩, ⟨2, 1, 100⟩],
    user_listing_watch := [⟨1, 10⟩, ⟨2, 11⟩] }

/-- The empty database. -/
def emptyDB : DB := ⟨[], [], [], [], [], []⟩

/-- Fault model: statement 2 of the cascade raises `"boom"`. -/
def failAtTwo : Nat → Option String := fun i => if i = 2 then some "boom" else none

/-- Fault model: every statement succeeds. -/
def noFail : Nat → Option String := fun _ => none

/-- Valid form, rating entry left empty. -/
def inpRatingEmpty : FormInput := ⟨"alice", "a@x.com", "buyer", "active", ""⟩

/-- Valid form, non-numeric rating entry. -/
def inpRatingBad : FormInput := ⟨"alice", "a@x.com", "buyer", "active", "abc"⟩

/-- Valid form, whitespace-only user-type entry. -/
def inpTypeSpace : FormInput := ⟨"alice", "a@x.com", " ", "active", "4.5"⟩

/-- Valid form, user type outside the enumerated set. -/
def inpTypeBad : FormInput := ⟨"alice", "a@x.com", "admin", "active", "4.5"⟩

/-- Valid form, account status outside the enumerated set. -/
def inpStatusBad : FormInput := ⟨"alice", "a@x.com", "buyer", "dormant", "4.5"⟩

/-- Valid form with empty user-type, status and rating entries. -/
def inpDefaults : FormInput := ⟨"alice", "a@x.com", "", " ", "  "⟩

/-- Environment with only `USER` set. -/
def wEnv : String → Option String := fun k => if k = "USER" then some "osuser" else none

/-- The parameters `get_conn` assembles from `wEnv`. -/
def wParams : ConnParams := ⟨none, 5432, some "osuser", none, "ebay_db"⟩

/-- Environment with every `PG*` variable set. -/
def wEnv2 : String → Option String := fun k =>
  if k = "PGHOST" then some "dbhost"
  else if k = "PGPORT" then some "6543"
  else if k = "PGUSER" then some "carol"
  else if k = "PGPASSWORD" then some "pw"
  else if k = "PGDATABASE" then some "proddb"
  else none

/-- The parameters `get_conn` assembles from `wEnv2`. -/
def wParams2 : ConnParams := ⟨some "dbhost", 6543, some "carol", some "pw", "proddb"⟩

/-- A UI state with a selection and a filled form. -/
def sampleState : AppState := ⟨some 2, ⟨"bob".data, "b@x.com".data, "seller".data, "active".data, "3".data⟩⟩

/-
## Theorems
-/

/- ### Shared lemmas -/

theorem anyEq_listingArray (x : Int) (L : List Int) :
    anyEq x (listingArray L) = memId x L := by
  rcases L with _ | ⟨a, as⟩
  · simp [anyEq, listingArray, memId]
  · rw [Bool.eq_iff_iff]
    simp [anyEq, listingArray, memId, List.any_map, List.any_eq_true, Function.comp]

theorem orDefault_ne (s d : PyStr) (h : s ≠ []) : orDefault s d = s := if_neg h

theorem ratingValue_ne (s : PyStr) (h : s ≠ []) : ratingValue s = pyFloat s := if_neg h

theorem all_of_filter {α : Type} {p q : α → Bool} (l : List α)
    (h : ∀ a, p a = true → q a = true) : (l.filter p).all q = true := by
  rw [List.all_eq_true]
  intro a ha
  exact h a (List.of_mem_filter ha)

theorem execStmts_noFail (fail : Nat → Option String) (h : ∀ i, fail i = none)
    (stmts : List Sql) (i : Nat) (db : DB) :
    execStmts fail stmts i db
      = (.ok (stmts.foldl (fun d s => applySql s d) db), stmts) := by
  induction stmts generalizing i db with
  | nil => rfl
  | cons s rest ih => simp [execStmts, h, List.foldl, ih]

theorem deleteCascadeRun_noFail (fail : Nat → Option String) (h : ∀ i, fail i = none)
    (uid : Int) (db : DB) :
    deleteCascadeRun uid db fail
      = (.ok (deleteCascade uid db),
         .selListings uid :: cascadeStmts uid (listingArray (ownedListings db uid))) := by
  simp [deleteCascadeRun, h, execStmts_noFail fail h, deleteCascade]

/- ### C1 -/

/-- **C1.** After the delete cascade for user `uid` completes
successfully, no row left in `feedback`, `transaction`, `bid` or
`user_listing_watch` references `uid` or any listing `uid` owned at the
start of the operation, and no `listing` row has `seller_id = uid`. -/
theorem delete_referential_cleanup (uid : Int) (db : DB) :
    noUserRefs uid (ownedListings db uid) (deleteCascade uid db) = true := by
  simp only [deleteCascade, cascadeStmts, List.foldl, applySql, noUserRefs,
    Bool.and_eq_true]
  refine ⟨⟨⟨⟨?_, ?_⟩, ?_⟩, ?_⟩, ?_⟩
  · exact all_of_filter _ (fun f hf => by
      simp only [Bool.not_eq_true', Bool.or_eq_false_iff] at hf
      simp [hf.1.1, hf.1.2, bne_iff_ne, beq_iff_eq]
      constructor
      · simpa [beq_iff_eq] using hf.1.1
      · simpa [beq_iff_eq] using hf.1.2)
  · exact all_of_filter _ (fun t ht => by
      simp only [Bool.not_eq_true', Bool.or_eq_false_iff, anyEq_listingArray,
        beq_eq_false_iff_ne] at ht
      simp [bne_iff_ne, ht.1.1, ht.1.2, ht.2])
  · exact all_of_filter _ (fun b hb => by
      simp only [Bool.not_eq_true', Bool.or_eq_false_iff, anyEq_listingArray,
        beq_eq_false_iff_ne] at hb
      simp [bne_iff_ne, hb.1, hb.2])
  · exact all_of_filter _ (fun w hw => by
      simp only [Bool.not_eq_true', Bool.or_eq_false_iff, anyEq_listingArray,
        beq_eq_false_iff_ne] at hw
      simp [bne_iff_ne, hw.1, hw.2])
  · exact all_of_filter _ (fun l hl => by
      simp only [Bool.not_eq_true', beq_eq_false_iff_ne] at hl
      simp [bne_iff_ne, hl])

/- ### C2 -/

/-- **C2.** If any statement of the delete cascade raises, the whole
cascade is aborted: the transaction is rolled back, the committed
database equals the state from before the operation, and the exception
text is shown verbatim in a "Delete failed" error dialog. -/
theorem delete_atomic (sel : Option Int) (db : DB) (fail : Nat → Option String)
    (m : String) (hsel : pyTruthy sel = true)
    (hfail : (deleteCascadeRun (sel.getD 0) db fail).1 = .error m) :
    (deleteButton sel true db fail).db = db ∧
    (deleteButton sel true db fail).dialog = some (.error "Delete failed" m) := by
  simp [deleteButton, hsel, hfail]

/-- Witness for `delete_atomic`: statement 2 raising "boom" leaves
`sampleDB` untouched. -/
theorem delete_atomic_witness :
    (deleteButton (some 1) true sampleDB failAtTwo).db = sampleDB ∧
    (deleteButton (some 1) true sampleDB failAtTwo).dialog
      = some (.error "Delete failed" "boom") :=
  delete_atomic (some 1) sampleDB failAtTwo "boom" (by decide) (by rfl)

/- ### C3 -/

/-- **C3.** A completed delete issues its `DELETE` statements in exactly
the order feedback, transaction, bid, user_listing_watch, listing,
user_account. -/
theorem delete_order (uid : Int) (db : DB) (h : uid ≠ 0) :
    ((deleteButton (some uid) true db noFail).trace).filterMap deleteTarget
      = [.feedback, .transaction, .bid, .user_listing_watch, .listing, .user_account] := by
  have hsel : pyTruthy (some uid) = true := by simp [pyTruthy, h]
  simp [deleteButton, hsel, deleteCascadeRun_noFail noFail (fun _ => rfl),
    cascadeStmts, deleteTarget]

/-- Witness for `delete_order` at user 1 over `sampleDB`. -/
theorem delete_order_witness :
    ((deleteButton (some 1) true sampleDB noFail).trace).filterMap deleteTarget
      = [.feedback, .transaction, .bid, .user_listing_watch, .listing, .user_account] :=
  delete_order 1 sampleDB (by decide)

/- ### C10 -/

/-- **C10.** While the stored selection is falsy (`None`, or the integer
0), update and delete show the corresponding "Select a user ..." error
dialog, issue no SQL statement, and leave the database unchanged. -/
theorem unselected_rejected (sel : Option Int) (inp : FormInput) (db : DB)
    (confirm : Bool) (fail : Nat → Option String) (h : pyTruthy sel = false) :
    deleteButton sel confirm db fail
        = ⟨db, some (.error "Error" "Select a user to delete."), []⟩ ∧
      update sel inp db = ⟨db, some (.error "Error" "Select a user to update."), []⟩ := by
  constructor
  · simp [deleteButton, h]
  · simp [update, h]

/-- Witness for `unselected_rejected` at the falsy selection `some 0`. -/
theorem unselected_rejected_witness :
    deleteButton (some 0) true sampleDB noFail
        = ⟨sampleDB, some (.error "Error" "Select a user to delete."), []⟩ ∧
      update (some 0) inpRatingBad sampleDB
        = ⟨sampleDB, some (.error "Error" "Select a user to update."), []⟩ :=
  unselected_rejected (some 0) inpRatingBad sampleDB true noFail (by decide)

/- ### C6 -/

/-- **C6.** A listing refresh returns the `user_account` rows ordered by
ascending `user_id`, and the rendered listbox lines present them in that
order. -/
theorem refresh_ordered (db : DB) :
    List.Pairwise (fun a b : UserRow => a.user_id ≤ b.user_id) (refreshRows db) ∧
    (refreshRows db).Perm db.user_account ∧
    refreshDisplay db = (refreshRows db).map renderLine := by
  have htrans : ∀ a b c : UserRow,
      userLe a b = true → userLe b c = true → userLe a c = true := by
    intro a b c hab hbc
    simp only [userLe, decide_eq_true_eq] at hab hbc ⊢
    omega
  have htotal : ∀ a b : UserRow, (userLe a b || userLe b a) = true := by
    intro a b
    simp only [userLe, Bool.or_eq_true, decide_eq_true_eq]
    omega
  have h := List.sorted_mergeSort htrans htotal db.user_account
  refine ⟨?_, List.mergeSort_perm _ _, rfl⟩
  exact h.imp (fun hb => by simpa [userLe] using hb)

/- ### C7 -/

/-- **C7.** A selection event whose rendered line text does not parse to
an integer id is silently ignored: no id ends up stored and the form
entries are not updated. -/
theorem malformed_selection_ignored (text : PyStr) (st : AppState) (db : DB)
    (h : extractId text = none) :
    (on_select text st db).selected_id = none ∧
    (on_select text st db).form = st.form := by
  simp [on_select, h]

/-- Witness for `malformed_selection_ignored` on a parse-proof line. -/
theorem malformed_selection_ignored_witness :
    (on_select "no id here".data sampleState sampleDB).selected_id = none ∧
    (on_select "no id here".data sampleState sampleDB).form = sampleState.form :=
  malformed_selection_ignored "no id here".data sampleState sampleDB (by decide)

/- ### C8 -/

/-- **C8.** The connection parameters come from the environment variables
PGHOST, PGPORT, PGUSER, PGPASSWORD and PGDATABASE; PGPORT defaults to
5432, PGUSER to the OS user (the `USER` variable) and PGDATABASE to
`ebay_db` when the variable is unset. -/
theorem conn_params_from_env (env : String → Option String) (p : ConnParams)
    (hp : get_conn env = some p) :
    (env "PGPORT" = none → p.port = 5432) ∧
    (∀ s, env "PGPORT" = some s → pyInt s.data = some p.port) ∧
    (env "PGUSER" = none → p.user = env "USER") ∧
    (∀ s, env "PGUSER" = some s → p.user = some s) ∧
    (env "PGDATABASE" = none → p.dbname = "ebay_db") ∧
    (∀ s, env "PGDATABASE" = some s → p.dbname = s) ∧
    (∀ s, env "PGHOST" = some s → s ≠ "" → p.host = some s) ∧
    p.password = env "PGPASSWORD" := by
  simp only [get_conn] at hp
  rcases hport : pyInt ((env "PGPORT").getD "5432").data with _ | port <;>
    rw [hport] at hp
  · exact absurd hp (by simp)
  · rw [Option.some_inj] at hp
    subst hp
    refine ⟨?_, ?_, ?_, ?_, ?_, ?_, ?_, rfl⟩
    · intro h0
      rw [h0] at hport
      simp only [Option.getD_none] at hport
      have hv : pyInt "5432".data = some 5432 := by decide
      rw [hv, Option.some_inj] at hport
      simpa using hport.symm
    · intro s hs
      rw [hs] at hport
      simpa using hport
    · intro h0
      simp [h0, Option.orElse]
    · intro s hs
      simp [hs, Option.orElse]
    · intro h0
      simp [h0]
    · intro s hs
      simp [hs]
    · intro s hs hne
      simp [hs, hne]

/-- Witness for `conn_params_from_env` on one bare and one fully set
environment. -/
theorem conn_params_witness :
    wParams.port = 5432 ∧ wParams.user = some "osuser" ∧ wParams.dbname = "ebay_db" ∧
    pyInt "6543".data = some wParams2.port ∧ wParams2.user = some "carol" ∧
    wParams2.dbname = "proddb" ∧ wParams2.host = some "dbhost" ∧
    wParams2.password = wEnv2 "PGPASSWORD" := by
  have h1 := conn_params_from_env wEnv wParams (by decide)
  have h2 := conn_params_from_env wEnv2 wParams2 (by decide)
  exact ⟨h1.1 (by decide), h1.2.2.1 (by decide), h1.2.2.2.2.1 (by decide),
         h2.2.1 "6543" (by decide), h2.2.2.2.1 "carol" (by decide),
         h2.2.2.2.2.2.1 "proddb" (by decide),
         h2.2.2.2.2.2.2.1 "dbhost" (by decide) (by decide),
         h2.2.2.2.2.2.2.2⟩

/- ### C4 -/

/-- Counterexample to C4 as stated: the empty rating entry does not parse
as a real number (`float("")` raises `ValueError`), yet `create` is not
rejected — the entry is replaced by the default 0 and a row is written. -/
theorem rating_empty_accepted :
    pyFloat (pyStrip inpRatingEmpty.rating.data) = none ∧
    isErrorDialog (create inpRatingEmpty 7 emptyDB).dialog = false ∧
    (create inpRatingEmpty 7 emptyDB).db.user_account.length = 1 := by
  exact ⟨by decide, by decide, by decide⟩

/-- **C4 (amended).** For every rating entry that is non-empty after
stripping and either does not parse as a float or parses to a value
outside [0, 5], both create and update are rejected with an error dialog
and write nothing.  (The unamended claim fails on the empty or
whitespace-only entry, which is defaulted to 0 — see
`rating_empty_accepted`.) -/
theorem rating_validation_rejects (inp : FormInput) (newId : Int)
    (sel : Option Int) (db : DB)
    (hne : pyStrip inp.rating.data ≠ [])
    (hbad : ∀ v, pyFloat (pyStrip inp.rating.data) = some v → ratingInRange v = false) :
    rejectedNoWrite (create inp newId db) db ∧
    rejectedNoWrite (update sel inp db) db := by
  constructor
  · simp only [create, ratingValue_ne _ hne]
    split_ifs with h1 h2 h3
    · exact ⟨rfl, rfl, rfl⟩
    · rcases hpf : pyFloat (pyStrip inp.rating.data) with _ | v
      · simp only [hpf]
        exact ⟨rfl, rfl, rfl⟩
      · have hv := hbad v hpf
        simp only [hpf]
        rw [if_pos (by simp [hv])]
        exact ⟨rfl, rfl, rfl⟩
    · exact ⟨rfl, rfl, rfl⟩
    · exact ⟨rfl, rfl, rfl⟩
  · simp only [update, ratingValue_ne _ hne]
    split_ifs with h0 h1 h2 h3
    · exact ⟨rfl, rfl, rfl⟩
    · rcases hpf : pyFloat (pyStrip inp.rating.data) with _ | v
      · simp only [hpf]
        exact ⟨rfl, rfl, rfl⟩
      · have hv := hbad v hpf
        simp only [hpf]
        rw [if_pos (by simp [hv])]
        exact ⟨rfl, rfl, rfl⟩
    · exact ⟨rfl, rfl, rfl⟩
    · exact ⟨rfl, rfl, rfl⟩
    · exact ⟨rfl, rfl, rfl⟩

/-- Witness for `rating_validation_rejects` on the non-numeric entry
"abc". -/
theorem rating_validation_witness :
    rejectedNoWrite (create inpRatingBad 7 sampleDB) sampleDB ∧
    rejectedNoWrite (update (some 1) inpRatingBad sampleDB) sampleDB :=
  rating_validation_rejects inpRatingBad 7 (some 1) sampleDB (by decide)
    (by
      have hnone : pyFloat (pyStrip inpRatingBad.rating.data) = none := by decide
      intro v h
      rw [hnone] at h
      cases h)

/- ### C5 -/

/-- Counterexample to C5 as stated: the whitespace-only user-type entry
" " lies outside {buyer, seller, both}, yet `create` is not rejected —
the entry is defaulted to "buyer" and a row is written. -/
theorem user_type_space_accepted :
    (inpTypeSpace.user_type ∉ (["buyer", "seller", "both"] : List String)) ∧
    isErrorDialog (create inpTypeSpace 7 emptyDB).dialog = false ∧
    (create inpTypeSpace 7 emptyDB).db.user_account.map UserRow.user_type
      = ["buyer".data] := by
  exact ⟨by decide, by decide, by decide⟩

/-- **C5 (amended).** For every user-type entry that is non-empty after
stripping and outside {buyer, seller, both}, and every account-status
entry that is non-empty after stripping and outside
{active, suspended, closed}, create and update are rejected with an
error dialog and write nothing.  (The unamended claim fails on
whitespace-only entries, which are defaulted — see
`user_type_space_accepted`.) -/
theorem enum_validation_rejects (inp : FormInput) (newId : Int)
    (sel : Option Int) (db : DB) :
    ((pyStrip inp.user_type.data ≠ [] ∧
      pyStrip inp.user_type.data ∉ ["buyer".data, "seller".data, "both".data]) →
      rejectedNoWrite (create inp newId db) db ∧
      rejectedNoWrite (update sel inp db) db) ∧
    ((pyStrip inp.account_status.data ≠ [] ∧
      pyStrip inp.account_status.data ∉
        ["active".data, "suspended".data, "closed".data]) →
      rejectedNoWrite (create inp newId db) db ∧
      rejectedNoWrite (update sel inp db) db) := by
  constructor
  · rintro ⟨hne, hnotin⟩
    rw [List.mem_cons, List.mem_cons, List.mem_cons] at hnotin
    simp only [List.not_mem_nil, or_false] at hnotin
    constructor
    · simp only [create, orDefault_ne _ _ hne]
      split_ifs <;> exact ⟨rfl, rfl, rfl⟩
    · simp only [update, orDefault_ne _ _ hne]
      split_ifs <;> exact ⟨rfl, rfl, rfl⟩
  · rintro ⟨hne, hnotin⟩
    rw [List.mem_cons, List.mem_cons, List.mem_cons] at hnotin
    simp only [List.not_mem_nil, or_false] at hnotin
    constructor
    · simp only [create, orDefault_ne _ _ hne]
      split_ifs <;> exact ⟨rfl, rfl, rfl⟩
    · simp only [update, orDefault_ne _ _ hne]
      split_ifs <;> exact ⟨rfl, rfl, rfl⟩

/-- Witness for `enum_validation_rejects` on the entries "admin" and
"dormant". -/
theorem enum_validation_witness :
    (rejectedNoWrite (create inpTypeBad 7 sampleDB) sampleDB ∧
     rejectedNoWrite (update (some 1) inpTypeBad sampleDB) sampleDB) ∧
    (rejectedNoWrite (create inpStatusBad 7 sampleDB) sampleDB ∧
     rejectedNoWrite (update (some 1) inpStatusBad sampleDB) sampleDB) :=
  ⟨(enum_validation_rejects inpTypeBad 7 (some 1) sampleDB).1 ⟨by decide, by decide⟩,
   (enum_validation_rejects inpStatusBad 7 (some 1) sampleDB).2 ⟨by decide, by decide⟩⟩

/- ### C9 -/

/-- **C9.** An empty (or whitespace-only) user-type, account-status or
rating entry is replaced by the default "buyer", "active" or 0 before
validation: create and update behave exactly as if the default had been
typed in that field. -/
theorem empty_fields_defaulted (inp : FormInput) (newId : Int)
    (sel : Option Int) (db : DB) :
    (pyStrip inp.user_type.data = [] →
      create inp newId db = create { inp with user_type := "buyer" } newId db ∧
      update sel inp db = update sel { inp with user_type := "buyer" } db) ∧
    (pyStrip inp.account_status.data = [] →
      create inp newId db = create { inp with account_status := "active" } newId db ∧
      update sel inp db = update sel { inp with account_status := "active" } db) ∧
    (pyStrip inp.rating.data = [] →
      create inp newId db = create { inp with rating := "0" } newId db ∧
      update sel inp db = update sel { inp with rating := "0" } db) := by
  have hbuyer : pyStrip "buyer".data = "buyer".data := by decide
  have hbuyerNe : ¬ (pyStrip "buyer".data = []) := by decide
  have hactive : pyStrip "active".data = "active".data := by decide
  have hactiveNe : ¬ (pyStrip "active".data = []) := by decide
  have hzero : pyFloat (pyStrip "0".data) = some (PyVal.fin 0 0) := by decide
  have hzeroNe : ¬ (pyStrip "0".data = []) := by decide
  refine ⟨fun h => ⟨?_, ?_⟩, fun h => ⟨?_, ?_⟩, fun h => ⟨?_, ?_⟩⟩ <;>
    simp [create, update, orDefault, ratingValue, if_pos h, if_neg hbuyerNe,
      if_neg hactiveNe, if_neg hzeroNe, hbuyer, hactive, hzero]

/-- Witness for `empty_fields_defaulted` on a form whose user-type,
status and rating entries are all blank. -/
theorem empty_fields_defaulted_witness :
    create inpDefaults 7 emptyDB = create { inpDefaults with user_type := "buyer" } 7 emptyDB ∧
    create inpDefaults 7 emptyDB = create { inpDefaults with account_status := "active" } 7 emptyDB ∧
    create inpDefaults 7 emptyDB = create { inpDefaults with rating := "0" } 7 emptyDB ∧
    update (some 1) inpDefaults sampleDB = update (some 1) { inpDefaults with user_type := "buyer" } sampleDB :=
  ⟨((empty_fields_defaulted inpDefaults 7 (some 1) emptyDB).1 (by decide)).1,
   ((empty_fields_defaulted inpDefaults 7 (some 1) emptyDB).2.1 (by decide)).1,
   ((empty_fields_defaulted inpDefaults 7 (some 1) emptyDB).2.2 (by decide)).1,
   ((empty_fields_defaulted inpDefaults 7 (some 1) sampleDB).1 (by decide)).2⟩

/- ### Evaluation checks of the parser embedding -/

example : pyFloat "4.5".data = some (.fin 45 1) := by decide
example : pyFloat "".data = none := by decide
example : pyFloat "  -0.25e1  ".data = some (.fin (-250) 2) := by decide
example : pyFloat "InFiNiTy".data = some (.inf false) := by decide
example : pyFloat "nan".data = some .nan := by decide
example : pyFloat "1_0".data = some (.fin 10 0) := by decide
example : pyFloat "1_".data = none := by decide
example : pyFloat "5.".data = some (.fin 5 0) := by decide
example : pyFloat ".5".data = some (.fin 5 1) := by decide
example : pyFloat ".".data = none := by decide
example : pyFloat "abc".data = none := by decide
example : pyInt "  -42 ".data = some (-42) := by decide
example : pyInt "12".data = some 12 := by decide
example : pyInt "4.5".data = none := by decide
example : pyLe (.fin 0 0) (.fin 45 1) = true := by decide
example : pyLe (.fin 45 1) (.fin 5 0) = true := by decide
example : pyLe (.fin 0 0) .nan = false := by decide
example : pyLe (.fin 0 0) (.inf false) = true := by decide

end Crud
